import Mathlib

/-!
Shallow embedding of `crates/oxc_linter/src/rules/eslint/prefer_const.rs`
(the `prefer-const` lint rule) and proofs about its observable behaviour.

The rule's `run` method inspects a `VariableDeclaration` AST node: when the
declaration's kind is not `const` and its first declarator binds a plain
identifier whose symbol resolved, it counts the declarators that have no
inline initializer and emits one diagnostic when that count exceeds one.
`from_configuration` parses the JSON options `destructuring` and
`ignoreReadBeforeAssign`, falling back to the defaults on anything
unrecognized.
-/

set_option autoImplicit false

/-- Mirrors `enum Destructuring { All, #[default] Any }`. -/
inductive Destructuring where
  | All
  | Any
  deriving DecidableEq, Repr

/-- Mirrors `struct PreferConstOptions { destructuring, ignore_read_before_assign }`. -/
structure PreferConstOptions where
  destructuring : Destructuring
  ignore_read_before_assign : Bool
  deriving DecidableEq, Repr

/-- Mirrors `impl Default for PreferConstOptions` (the eslint defaults). -/
def PreferConstOptions.default : PreferConstOptions :=
  { destructuring := Destructuring.Any, ignore_read_before_assign := false }

/-- Mirrors `pub struct PreferConst(Box<PreferConstOptions>)`; the `Box`
indirection is irrelevant to the semantics. -/
structure PreferConst where
  options : PreferConstOptions
  deriving DecidableEq, Repr

/-- Model of a `serde_json::Value`: the configuration value handed to
`from_configuration`. Objects are ordered association lists, as the rule only
ever queries them by key. -/
inductive JsonValue where
  | null
  | bool (b : Bool)
  | num (n : Int)
  | str (s : String)
  | arr (elems : List JsonValue)
  | obj (fields : List (String × JsonValue))

/-- `serde_json::Value::as_object`. -/
def JsonValue.as_object : JsonValue → Option (List (String × JsonValue))
  | JsonValue.obj fields => some fields
  | _ => none

/-- `serde_json::Value::as_str`. -/
def JsonValue.as_str : JsonValue → Option String
  | JsonValue.str s => some s
  | _ => none

/-- `serde_json::Value::as_bool`. -/
def JsonValue.as_bool : JsonValue → Option Bool
  | JsonValue.bool b => some b
  | _ => none

/-- `serde_json::Map::get`: first binding of the key, if any. -/
def JsonValue.get_key (fields : List (String × JsonValue)) (key : String) :
    Option JsonValue :=
  List.lookup key fields

/-- Mirrors `oxc_span::Span` (`start`/`end` byte offsets; `u32` in the source,
`Nat` here since the rule only ever adds the constant 3). -/
structure Span where
  start : Nat
  end_ : Nat
  deriving DecidableEq, Repr

/-- Mirrors `Span::new`. -/
def Span.new (start : Nat) (end_ : Nat) : Span :=
  { start := start, end_ := end_ }

/-- Placeholder for an initializer `Expression`: `run` only ever tests whether
an initializer is present, never its contents. -/
inductive Expression where
  | mk
  deriving DecidableEq, Repr

/-- Mirrors `oxc_ast::ast::BindingPatternKind` at the granularity `run` uses:
it matches `BindingIdentifier` (extracting the name and the resolved
`symbol_id`, an `Option` in the source because resolution can fail) and lumps
every other pattern into its own constructor. -/
inductive BindingPatternKind where
  | BindingIdentifier (name : String) (symbol_id : Option Nat)
  | ObjectPattern
  | ArrayPattern
  | AssignmentPattern
  deriving DecidableEq, Repr

/-- True exactly on the `BindingIdentifier` constructor. -/
def BindingPatternKind.is_binding_identifier : BindingPatternKind → Bool
  | BindingPatternKind.BindingIdentifier _ _ => true
  | _ => false

/-- Mirrors `VariableDeclarator { id, init }`. -/
structure VariableDeclarator where
  id : BindingPatternKind
  init : Option Expression
  deriving DecidableEq, Repr

/-- Mirrors `VariableDeclarationKind` (`using` declarations are out of scope of
the program fragments the rule's own tests exercise). -/
inductive VariableDeclarationKind where
  | Var
  | Let
  | Const
  deriving DecidableEq, Repr

/-- Mirrors `VariableDeclaration { kind, declarations, span }`. -/
structure VariableDeclaration where
  kind : VariableDeclarationKind
  declarations : List VariableDeclarator
  span : Span
  deriving DecidableEq, Repr

/-- Mirrors `oxc_ast::AstKind` at the granularity `run` uses. -/
inductive AstKind where
  | VariableDeclaration (dec : VariableDeclaration)
  | Other
  deriving DecidableEq, Repr

/-- Mirrors `AstNode`: `run` only calls `node.kind()`. -/
structure AstNode where
  kind : AstKind
  deriving DecidableEq, Repr

/-- A resolved reference to a symbol. `run` fetches the reference list but
never inspects it, so its structure is irrelevant. -/
inductive Reference where
  | mk
  deriving DecidableEq, Repr

/-- The `ctx.semantic()` collaborator: resolves a symbol id to its ordered
reference list. -/
structure Semantic where
  symbol_references : Nat → List Reference

/-- Mirrors `LintContext`: `run` uses `ctx.semantic()` and `ctx.diagnostic(..)`. -/
structure LintContext where
  semantic : Semantic

/-- Mirrors `OxcDiagnostic` at the granularity the rule uses: a message and an
optional labeled span. -/
structure OxcDiagnostic where
  message : String
  label : Option Span
  deriving DecidableEq, Repr

/-- Mirrors `OxcDiagnostic::warn`. -/
def OxcDiagnostic.warn (message : String) : OxcDiagnostic :=
  { message := message, label := none }

/-- Mirrors `OxcDiagnostic::with_label`. -/
def OxcDiagnostic.with_label (d : OxcDiagnostic) (s : Span) : OxcDiagnostic :=
  { d with label := some s }

/-- Mirrors `PreferConst::from_configuration`. -/
def PreferConst.from_configuration (value : JsonValue) : PreferConst :=
  match JsonValue.as_object value with
  | none => { options := PreferConstOptions.default }
  | some obj =>
    let options0 := PreferConstOptions.default
    let options1 :=
      match JsonValue.get_key obj "destructuring" with
      | some destructuring =>
        { options0 with destructuring :=
            match JsonValue.as_str destructuring with
            | some "all" => Destructuring.All
            | _ => Destructuring.Any }
      | none => options0
    let options2 :=
      match JsonValue.get_key obj "ignoreReadBeforeAssign" with
      | some ignore_read_before_assign =>
        { options1 with ignore_read_before_assign :=
            (JsonValue.as_bool ignore_read_before_assign).getD false }
      | none => options1
    { options := options2 }

/-- Mirrors `PreferConst::run`. The two panics the source can raise —
indexing `dec.declarations[0]` on an empty list, and `symbol_id.unwrap()` on
an unresolved symbol — are modelled as `Except.error`; the list in the `ok`
result collects the diagnostics passed to `ctx.diagnostic` (zero or one). -/
def PreferConst.run (self : PreferConst) (node : AstNode) (ctx : LintContext) :
    Except String (List OxcDiagnostic) :=
  match node.kind with
  | AstKind.VariableDeclaration dec =>
    if dec.kind ≠ VariableDeclarationKind.Const then
      match dec.declarations[0]? with
      | none => Except.error "index out of bounds: the len is 0 but the index is 0"
      | some init_declaration =>
        match init_declaration.id with
        | BindingPatternKind.BindingIdentifier name symbol_id =>
          let var_name := name
          match symbol_id with
          | none => Except.error "called Option::unwrap on a None value"
          | some sid =>
            let references := ctx.semantic.symbol_references sid
            let filtered_declarations :=
              dec.declarations.filter (fun declaration => declaration.init.isNone)
            if filtered_declarations.length > 1 then
              Except.ok
                [OxcDiagnostic.with_label
                  (OxcDiagnostic.warn "Variable is never reassigned, use const instead.")
                  (Span.new dec.span.start (dec.span.start + 3))]
            else
              Except.ok []
        | _ => Except.ok []
    else
      Except.ok []
  | AstKind.Other => Except.ok []

/-- Whether `run` emits at least one diagnostic (and does not fault). -/
def PreferConst.emits (self : PreferConst) (node : AstNode) (ctx : LintContext) :
    Bool :=
  match PreferConst.run self node ctx with
  | Except.ok ds => !ds.isEmpty
  | Except.error _ => false

/-- Spec-side definition (§4.5 / §6): the qualifier keyword of a declaration
and its source span, the keyword starting at the declaration's start offset. -/
def VariableDeclarationKind.keyword : VariableDeclarationKind → String
  | VariableDeclarationKind.Var => "var"
  | VariableDeclarationKind.Let => "let"
  | VariableDeclarationKind.Const => "const"

/-- Spec-side definition: the span of the statement's qualifier keyword token. -/
def qualifier_keyword_span (dec : VariableDeclaration) : Span :=
  Span.new dec.span.start (dec.span.start + dec.kind.keyword.length)

/-- Characterization of any diagnostic `run` emits: the node is a non-`const`
variable declaration with more than one initializer-less declarator, and the
diagnostic is the fixed warning labeled at `start .. start + 3`. -/
lemma run_ok_mem_characterization (self : PreferConst) (node : AstNode)
    (ctx : LintContext) (ds : List OxcDiagnostic) (d : OxcDiagnostic)
    (hrun : PreferConst.run self node ctx = Except.ok ds) (hd : d ∈ ds) :
    ∃ dec, node.kind = AstKind.VariableDeclaration dec ∧
      dec.kind ≠ VariableDeclarationKind.Const ∧
      1 < (dec.declarations.filter (fun declaration => declaration.init.isNone)).length ∧
      d = OxcDiagnostic.with_label
            (OxcDiagnostic.warn "Variable is never reassigned, use const instead.")
            (Span.new dec.span.start (dec.span.start + 3)) := by
  unfold PreferConst.run at hrun
  split at hrun
  case h_2 =>
    cases hrun
    simp at hd
  case h_1 dec heq =>
    split at hrun
    case isFalse =>
      cases hrun
      simp at hd
    case isTrue hkc =>
      split at hrun
      case h_1 => exact absurd hrun (by simp)
      case h_2 init_declaration hidx =>
        split at hrun
        case h_2 => cases hrun; simp at hd
        case h_1 name symbol_id hident =>
          split at hrun
          case h_1 => exact absurd hrun (by simp)
          case h_2 sid hsym =>
            simp only [] at hrun
            split at hrun
            case isFalse => cases hrun; simp at hd
            case isTrue hlen =>
              cases hrun
              simp at hd
              exact ⟨dec, heq, hkc, hlen, hd⟩

/-- Claim C1: the spec says `let x; x = 0;` (one declarator, no inline
initializer, a single unconditional write) produces a warning, and the rule's
own fail-test list contains this very program.  Evaluating the embedded `run`
on the `let x;` declaration (symbol resolved, one reference for the write
`x = 0`) shows the code emits no diagnostic: only one declarator lacks an
initializer, and the code requires more than one. -/
theorem run_let_uninitialized_single_declarator_no_diagnostic :
    PreferConst.run { options := PreferConstOptions.default }
      { kind := AstKind.VariableDeclaration
          { kind := VariableDeclarationKind.Let,
            declarations :=
              [{ id := BindingPatternKind.BindingIdentifier "x" (some 0),
                 init := none }],
            span := Span.new 0 6 } }
      { semantic := { symbol_references := fun _ => [Reference.mk] } } =
    Except.ok [] := rfl

/-- Claim C2: the spec says `let x = 1; foo(x);` warns and is fixed to
`const x = 1;`, and the rule's own fail- and fix-test lists contain this
program.  Evaluating the embedded `run` on the `let x = 1;` declaration
(symbol resolved, one read reference) shows the code emits no diagnostic:
the sole declarator has an initializer, so the count of initializer-less
declarators is zero, never exceeding one; the rule also declares no fix
capability (`pending`). -/
theorem run_let_initialized_read_only_no_diagnostic :
    PreferConst.run { options := PreferConstOptions.default }
      { kind := AstKind.VariableDeclaration
          { kind := VariableDeclarationKind.Let,
            declarations :=
              [{ id := BindingPatternKind.BindingIdentifier "x" (some 0),
                 init := some Expression.mk }],
            span := Span.new 0 10 } }
      { semantic := { symbol_references := fun _ => [Reference.mk] } } =
    Except.ok [] := rfl

/-- Claim C3: the spec says a warning is emitted iff at least one declarator
is eligible.  In `let a, b; a = 1; a = 2; b = 1; b = 2;` both names are
reassigned twice, so no declarator is eligible and the spec forbids a
warning; yet evaluating the embedded `run` on the `let a, b;` declaration
shows the code does warn, because two declarators lack initializers. -/
theorem run_warns_despite_no_eligible_declarator :
    PreferConst.run { options := PreferConstOptions.default }
      { kind := AstKind.VariableDeclaration
          { kind := VariableDeclarationKind.Let,
            declarations :=
              [{ id := BindingPatternKind.BindingIdentifier "a" (some 0),
                 init := none },
               { id := BindingPatternKind.BindingIdentifier "b" (some 1),
                 init := none }],
            span := Span.new 0 9 } }
      { semantic := { symbol_references :=
          fun _ => [Reference.mk, Reference.mk] } } =
    Except.ok [{ message := "Variable is never reassigned, use const instead.",
                 label := some (Span.new 0 3) }] := rfl

/-- Claim C9: the spec says a declaration whose binding's symbol could not be
resolved is skipped silently, with no fault.  Evaluating the embedded `run`
on a `let x = 1;` declaration whose `symbol_id` is unresolved (`none`) shows
the code faults instead: `symbol_id.unwrap()` panics. -/
theorem run_unresolved_symbol_faults :
    PreferConst.run { options := PreferConstOptions.default }
      { kind := AstKind.VariableDeclaration
          { kind := VariableDeclarationKind.Let,
            declarations :=
              [{ id := BindingPatternKind.BindingIdentifier "x" none,
                 init := some Expression.mk }],
            span := Span.new 0 10 } }
      { semantic := { symbol_references := fun _ => [] } } =
    Except.error "called Option::unwrap on a None value" := rfl

/-- Claim C4: a declaration whose qualifier is already `const` is never
analyzed: `run` emits no diagnostic (and no fault) for it. -/
theorem run_skips_const_declarations (self : PreferConst) (ctx : LintContext)
    (dec : VariableDeclaration)
    (h : dec.kind = VariableDeclarationKind.Const) :
    PreferConst.run self { kind := AstKind.VariableDeclaration dec } ctx =
      Except.ok [] := by
  simp [PreferConst.run, h]

/-- Witness for `run_skips_const_declarations` at `const x = 1;`. -/
theorem run_skips_const_declarations_witness :
    PreferConst.run { options := PreferConstOptions.default }
      { kind := AstKind.VariableDeclaration
          { kind := VariableDeclarationKind.Const,
            declarations :=
              [{ id := BindingPatternKind.BindingIdentifier "x" (some 0),
                 init := some Expression.mk }],
            span := Span.new 0 12 } }
      { semantic := { symbol_references := fun _ => [] } } =
    Except.ok [] :=
  run_skips_const_declarations _ _ _ rfl

/-- Claim C5: a `for-in`/`for-of` header declares exactly one declarator (its
control variable), and `run` never emits a diagnostic for a declaration with
a single declarator — whatever the references (hence however the loop body
reads or writes the variable and however many iterations occur). -/
theorem run_single_declarator_never_reported (self : PreferConst)
    (ctx : LintContext) (dec : VariableDeclaration) (ds : List OxcDiagnostic)
    (hlen : dec.declarations.length = 1)
    (hrun : PreferConst.run self { kind := AstKind.VariableDeclaration dec } ctx =
      Except.ok ds) :
    ds = [] := by
  by_contra hne
  obtain ⟨d, hd⟩ := List.exists_mem_of_ne_nil ds hne
  obtain ⟨dec', heq, -, hlt, -⟩ :=
    run_ok_mem_characterization self _ ctx ds d hrun hd
  have hdec : dec = dec' := by
    simpa using heq
  subst hdec
  have hle := List.length_filter_le
    (fun declaration => declaration.init.isNone) dec.declarations
  omega

/-- Witness for `run_single_declarator_never_reported` at
`for (let i of [1,2,3]) { foo(i); }`. -/
theorem run_single_declarator_never_reported_witness :
    ([] : List OxcDiagnostic) = [] :=
  run_single_declarator_never_reported
    { options := PreferConstOptions.default }
    { semantic := { symbol_references := fun _ => [Reference.mk, Reference.mk] } }
    { kind := VariableDeclarationKind.Let,
      declarations :=
        [{ id := BindingPatternKind.BindingIdentifier "i" (some 0),
           init := none }],
      span := Span.new 5 10 }
    [] rfl rfl

/-- Claim C6: `run` reads neither `options.destructuring` nor any other field
of `self`, so a node that warns under `destructuring: all` warns under
`destructuring: any` with the same other options — eligibility is monotone
from `all` to `any` (here trivially, since the two runs coincide). -/
theorem warn_under_all_implies_warn_under_any (b : Bool) (node : AstNode)
    (ctx : LintContext)
    (h : PreferConst.emits
      { options := { destructuring := Destructuring.All,
                     ignore_read_before_assign := b } } node ctx = true) :
    PreferConst.emits
      { options := { destructuring := Destructuring.Any,
                     ignore_read_before_assign := b } } node ctx = true :=
  h

/-- Witness for `warn_under_all_implies_warn_under_any` at `let a, b;` (which
the code reports under either policy). -/
theorem warn_under_all_implies_warn_under_any_witness :
    PreferConst.emits
      { options := { destructuring := Destructuring.Any,
                     ignore_read_before_assign := false } }
      { kind := AstKind.VariableDeclaration
          { kind := VariableDeclarationKind.Let,
            declarations :=
              [{ id := BindingPatternKind.BindingIdentifier "a" (some 4),
                 init := none },
               { id := BindingPatternKind.BindingIdentifier "b" (some 5),
                 init := none }],
            span := Span.new 10 19 } }
      { semantic := { symbol_references := fun _ => [] } } = true :=
  warn_under_all_implies_warn_under_any false _ _ rfl

/-- Claim C7: every diagnostic `run` emits carries the fixed message
`Variable is never reassigned, use const instead.` (the source's rendering of
"use an immutable-binding keyword instead") and is labeled with the span of
the statement's qualifier keyword token (`start .. start + 3`, and the
qualifier of any analyzed statement — `var` or `let` — is 3 bytes long),
regardless of which declarator triggered the warning. -/
theorem emitted_diagnostic_message_and_span (self : PreferConst)
    (ctx : LintContext) (dec : VariableDeclaration) (ds : List OxcDiagnostic)
    (d : OxcDiagnostic)
    (hrun : PreferConst.run self { kind := AstKind.VariableDeclaration dec } ctx =
      Except.ok ds)
    (hd : d ∈ ds) :
    d.message = "Variable is never reassigned, use const instead." ∧
    d.label = some (qualifier_keyword_span dec) := by
  obtain ⟨dec', heq, hkc, -, hdiag⟩ :=
    run_ok_mem_characterization self _ ctx ds d hrun hd
  have hdec : dec = dec' := by
    simpa using heq
  subst hdec
  subst hdiag
  refine ⟨rfl, ?_⟩
  cases hkind : dec.kind with
  | Var =>
    have h3 : ("var".length : Nat) = 3 := by decide
    simp [OxcDiagnostic.with_label, OxcDiagnostic.warn, qualifier_keyword_span,
      VariableDeclarationKind.keyword, hkind, h3]
  | Let =>
    have h3 : ("let".length : Nat) = 3 := by decide
    simp [OxcDiagnostic.with_label, OxcDiagnostic.warn, qualifier_keyword_span,
      VariableDeclarationKind.keyword, hkind, h3]
  | Const => exact absurd hkind hkc

/-- Witness for `emitted_diagnostic_message_and_span` at `let c, d;`. -/
theorem emitted_diagnostic_message_and_span_witness :
    ({ message := "Variable is never reassigned, use const instead.",
       label := some (Span.new 7 10) } : OxcDiagnostic).message =
      "Variable is never reassigned, use const instead." ∧
    ({ message := "Variable is never reassigned, use const instead.",
       label := some (Span.new 7 10) } : OxcDiagnostic).label =
      some (qualifier_keyword_span
        { kind := VariableDeclarationKind.Let,
          declarations :=
            [{ id := BindingPatternKind.BindingIdentifier "c" (some 0),
               init := none },
             { id := BindingPatternKind.BindingIdentifier "d" (some 1),
               init := none }],
          span := Span.new 7 16 }) :=
  emitted_diagnostic_message_and_span
    { options := PreferConstOptions.default }
    { semantic := { symbol_references := fun _ => [] } }
    { kind := VariableDeclarationKind.Let,
      declarations :=
        [{ id := BindingPatternKind.BindingIdentifier "c" (some 0),
           init := none },
         { id := BindingPatternKind.BindingIdentifier "d" (some 1),
           init := none }],
      span := Span.new 7 16 }
    [{ message := "Variable is never reassigned, use const instead.",
       label := some (Span.new 7 10) }]
    { message := "Variable is never reassigned, use const instead.",
      label := some (Span.new 7 10) }
    rfl (by simp)

/-- Claim C8: unrecognized configuration falls back to the defaults: a
non-object (or absent, i.e. `null`) configuration yields the default options;
a `destructuring` value that is not one of the recognized strings yields
`Any`; a non-boolean `ignoreReadBeforeAssign` yields `false`. -/
theorem from_configuration_falls_back_to_defaults :
    (∀ value : JsonValue, JsonValue.as_object value = none →
      PreferConst.from_configuration value =
        { options := PreferConstOptions.default }) ∧
    (∀ (fields : List (String × JsonValue)) (destructuring : JsonValue),
      JsonValue.get_key fields "destructuring" = some destructuring →
      JsonValue.as_str destructuring ≠ some "all" →
      JsonValue.as_str destructuring ≠ some "any" →
      (PreferConst.from_configuration (JsonValue.obj fields)).options.destructuring =
        Destructuring.Any) ∧
    (∀ (fields : List (String × JsonValue)) (ignore_read_before_assign : JsonValue),
      JsonValue.get_key fields "ignoreReadBeforeAssign" =
        some ignore_read_before_assign →
      JsonValue.as_bool ignore_read_before_assign = none →
      (PreferConst.from_configuration
        (JsonValue.obj fields)).options.ignore_read_before_assign = false) := by
  refine ⟨?_, ?_, ?_⟩
  · intro value h
    simp [PreferConst.from_configuration, h]
  · intro fields destructuring hget hne1 hne2
    simp only [PreferConst.from_configuration, JsonValue.as_object, hget]
    split <;> rfl
  · intro fields ignore_read_before_assign hget hnb
    simp only [PreferConst.from_configuration, JsonValue.as_object, hget]
    rw [hnb]
    rfl

/-- Witness for `from_configuration_falls_back_to_defaults`: `null`
configuration, `{"destructuring": "foo"}`, and `{"ignoreReadBeforeAssign": 1}`. -/
theorem from_configuration_falls_back_to_defaults_witness :
    PreferConst.from_configuration JsonValue.null =
      { options := PreferConstOptions.default } ∧
    (PreferConst.from_configuration
      (JsonValue.obj [("destructuring", JsonValue.str "foo")])).options.destructuring =
      Destructuring.Any ∧
    (PreferConst.from_configuration
      (JsonValue.obj [("ignoreReadBeforeAssign", JsonValue.num 1)])).options.ignore_read_before_assign =
      false :=
  ⟨from_configuration_falls_back_to_defaults.1 JsonValue.null rfl,
   from_configuration_falls_back_to_defaults.2.1
     [("destructuring", JsonValue.str "foo")] (JsonValue.str "foo") rfl
     (by decide) (by decide),
   from_configuration_falls_back_to_defaults.2.2
     [("ignoreReadBeforeAssign", JsonValue.num 1)] (JsonValue.num 1) rfl rfl⟩

/-- Claim C10: a non-`const` declaration whose first declarator's binding
pattern is not a plain identifier is skipped: `run` emits nothing, whatever
the remaining declarators, the references, or the options. -/
theorem run_skips_non_identifier_first_declarator (self : PreferConst)
    (ctx : LintContext) (dec : VariableDeclaration) (d0 : VariableDeclarator)
    (rest : List VariableDeclarator)
    (hk : dec.kind ≠ VariableDeclarationKind.Const)
    (hds : dec.declarations = d0 :: rest)
    (hid : d0.id.is_binding_identifier = false) :
    PreferConst.run self { kind := AstKind.VariableDeclaration dec } ctx =
      Except.ok [] := by
  cases hi : d0.id with
  | BindingIdentifier name symbol_id =>
    rw [hi] at hid
    simp [BindingPatternKind.is_binding_identifier] at hid
  | ObjectPattern => simp [PreferConst.run, hds, hk, hi]
  | ArrayPattern => simp [PreferConst.run, hds, hk, hi]
  | AssignmentPattern => simp [PreferConst.run, hds, hk, hi]

/-- Witness for `run_skips_non_identifier_first_declarator` at
`let {p, q} = obj, r, s;` — even with two later initializer-less declarators
the statement is skipped because the first pattern is a destructuring. -/
theorem run_skips_non_identifier_first_declarator_witness :
    PreferConst.run { options := PreferConstOptions.default }
      { kind := AstKind.VariableDeclaration
          { kind := VariableDeclarationKind.Let,
            declarations :=
              [{ id := BindingPatternKind.ObjectPattern,
                 init := some Expression.mk },
               { id := BindingPatternKind.BindingIdentifier "r" (some 1),
                 init := none },
               { id := BindingPatternKind.BindingIdentifier "s" (some 2),
                 init := none }],
            span := Span.new 0 23 } }
      { semantic := { symbol_references := fun _ => [] } } =
    Except.ok [] :=
  run_skips_non_identifier_first_declarator _ _ _
    { id := BindingPatternKind.ObjectPattern, init := some Expression.mk }
    [{ id := BindingPatternKind.BindingIdentifier "r" (some 1), init := none },
     { id := BindingPatternKind.BindingIdentifier "s" (some 2), init := none }]
    (by decide) rfl rfl
